import Mathlib

/-!
Verification development for the bank_ai repository.

The development shallowly embeds the two Netlify service modules
(`transaction-service.js`, `customer-service.js`, which bundles the
account-service handlers) and, where a claim depends on the Supabase-side
routines `post_ledger_transaction` / `calculate_balance` that are not part of
the JavaScript sources, models those routines from the specification
(spec.md §4.1–§4.3, §5).

Conventions of the embedding:
* JavaScript strings are `String`; a missing/falsy string field is `""`.
* JavaScript numbers carrying money amounts are `Int`; every amount the
  claims exercise is whole, and the code only compares, negates and sums
  amounts, so the embedding is exact on them. A request `amount` field is
  `Option Int`, `none` standing for an absent field.
* Database reads, the customer lookup and the ledger RPC are injected as
  function arguments; handlers additionally return the list of datastore
  effects they performed, in order, so that claims about "no read happens"
  or "before any write" are statements about that trace.
-/

namespace BankAI

/-! ## String helpers

Kernel-computable models of the JavaScript string operations the handlers
use (`toUpperCase`, `trim`, `split`), defined structurally over character
lists so that concrete runs evaluate by `decide`. -/

/-- Model of JavaScript `String.prototype.toUpperCase` on the ASCII strings
the handlers receive. -/
def jsToUpperCase (s : String) : String :=
  String.mk (s.toList.map Char.toUpper)

/-- Model of JavaScript `String.prototype.trim`: strip leading and trailing
whitespace. -/
def trimChars (cs : List Char) : List Char :=
  ((cs.dropWhile Char.isWhitespace).reverse.dropWhile Char.isWhitespace).reverse

/-- The suffix following the first occurrence of `marker`, or `none` when the
marker does not occur; `afterFirst m cs = some r` iff `cs` contains `m`, with
`r` the characters after its first occurrence. -/
def afterFirst (marker : List Char) : List Char → Option (List Char)
  | [] => if marker = [] then some [] else none
  | c :: t =>
    if marker.isPrefixOf (c :: t) then some ((c :: t).drop marker.length)
    else afterFirst marker t

/-- The characters preceding the first occurrence of `marker` (everything when
the marker does not occur). -/
def upToMarker (marker : List Char) : List Char → List Char
  | [] => []
  | c :: t => if marker.isPrefixOf (c :: t) then [] else c :: upToMarker marker t

/-! ## Ledger data model (spec.md §3) -/

deriving instance DecidableEq for Except

inductive Direction
  | debit
  | credit
deriving DecidableEq, Repr

structure LedgerEntry where
  transaction_id : String
  account_id : String
  direction : Direction
  amount : Int
  currency : String
deriving DecidableEq, Repr

/-- Transaction ids that occur on some entry of the ledger. -/
def postedIds (l : List LedgerEntry) : List String :=
  l.map (fun e => e.transaction_id)

/-- The entries grouped under one transaction id, in ledger order. -/
def entriesFor (l : List LedgerEntry) (tid : String) : List LedgerEntry :=
  l.filter (fun e => e.transaction_id == tid)

/-- Signed effect of one entry on one account: credits add, debits subtract. -/
def entryEffect (accountId : String) (e : LedgerEntry) : Int :=
  if e.account_id = accountId then
    match e.direction with
    | Direction.credit => e.amount
    | Direction.debit => -e.amount
  else 0

/-- Modelled from the spec: the database routine `calculate_balance` invoked
via RPC by `customer-service.js` is not under src/; per spec.md §4.2 the
balance is Σ(credit entry amounts) − Σ(debit entry amounts) over the
account's entries, a pure function of the entry history. -/
def calculate_balance (l : List LedgerEntry) (accountId : String) : Int :=
  (l.map (entryEffect accountId)).sum

/-- Account row as stored in the `accounts` table (directory view used by the
ledger routine and the transfer handler). -/
structure AccountInfo where
  customer_id : Int
  currency : String
  status : String
deriving DecidableEq, Repr

inductive RpcFailure
  | accountNotFound
  | accountIneligible
  | insufficientFunds
  | conflict
deriving DecidableEq, Repr

/-- Modelled from the spec: the database routine `post_ledger_transaction`
invoked via RPC by `transaction-service.js` is not under src/; per
spec.md §4.3 steps 2–4 and §4.1 it resolves both accounts (reject
`AccountNotFound` / `AccountIneligible` on absence, non-ACTIVE status or
currency mismatch), checks the debit account's balance for sufficiency,
rejects a duplicate transaction id with `Conflict`, and otherwise atomically
appends the balanced DEBIT/CREDIT entry pair. -/
def post_ledger_transaction (dir : String → Option AccountInfo)
    (l : List LedgerEntry) (txId debitId creditId : String)
    (amount : Int) (currency : String) : Except RpcFailure (List LedgerEntry) :=
  match dir debitId, dir creditId with
  | some d, some c =>
    if d.status ≠ "ACTIVE" ∨ c.status ≠ "ACTIVE" then Except.error RpcFailure.accountIneligible
    else if d.currency ≠ currency ∨ c.currency ≠ currency then Except.error RpcFailure.accountIneligible
    else if calculate_balance l debitId < amount then Except.error RpcFailure.insufficientFunds
    else if txId ∈ postedIds l then Except.error RpcFailure.conflict
    else Except.ok (l ++
      [⟨txId, debitId, Direction.debit, amount, currency⟩,
       ⟨txId, creditId, Direction.credit, amount, currency⟩])
  | _, _ => Except.error RpcFailure.accountNotFound

/-- Modelled from the spec: the PostgREST-level error message the service
receives for each failure kind of the database routine; plain text with no
EXCEPTION marker, as PostgREST surfaces the raised message itself. -/
def rpcMessageOf : RpcFailure → String
  | RpcFailure.accountNotFound => "Account not found"
  | RpcFailure.accountIneligible => "Account ineligible"
  | RpcFailure.insufficientFunds => "Insufficient funds"
  | RpcFailure.conflict => "duplicate key value violates unique constraint"

/-! ## transaction-service.js : handleInternalTransfer -/

/-- Parsed JSON body of `POST /transfers/internal`
(`transaction-service.js` line 78). -/
structure TransferRequest where
  fromAccountId : String
  toAccountId : String
  amount : Option Int
  currency : String
  description : Option String
deriving DecidableEq, Repr

/-- HTTP-style response of the transfer handler; unused body fields are
`none`. `txStatus` models the body's `status` field. -/
structure TxResponse where
  statusCode : Nat
  message : Option String
  details : Option String
  transactionId : Option String
  txStatus : Option String
deriving DecidableEq, Repr

def badRequest (msg : String) : TxResponse := ⟨400, some msg, none, none, none⟩

def forbidden (msg : String) : TxResponse := ⟨403, some msg, none, none, none⟩

/-- Datastore operations the transfer handler can perform, in order. -/
inductive Effect
  | readCustomer (sub : String)
  | readAccount (accountId : String)
  | rpcPost (txId debitId creditId : String) (amount : Int) (currency : String)
deriving DecidableEq, Repr

/-- JS truthiness of the `amount` field: absent or `0` is falsy. -/
def amountFalsy : Option Int → Prop
  | none => True
  | some q => q = 0

instance : DecidablePred amountFalsy := fun a =>
  match a with
  | none => isTrue trivial
  | some q => inferInstanceAs (Decidable (q = 0))

/-- Input validation of `handleInternalTransfer`
(`transaction-service.js` lines 80–92), in source order: missing/falsy
fields, non-positive amount, identical accounts, currency length ≠ 3.
Returns the 400 response produced, or `none` when validation passes. -/
def validateTransfer (r : TransferRequest) : Option TxResponse :=
  if r.fromAccountId = "" ∨ r.toAccountId = "" ∨ amountFalsy r.amount ∨ r.currency = "" then
    some (badRequest "Missing required fields: fromAccountId, toAccountId, amount, currency")
  else if r.amount.getD 0 ≤ 0 then
    some (badRequest "Invalid amount: must be a positive number")
  else if r.fromAccountId = r.toAccountId then
    some (badRequest "From and To accounts cannot be the same")
  else if r.currency.length ≠ 3 then
    some (badRequest "Invalid currency code (must be 3 letters)")
  else none

/-- Outcome of the authorization section (lines 96–117). -/
inductive AuthOutcome
  | reject (resp : TxResponse)
  | proceed
deriving DecidableEq, Repr

/-- Authorization section of `handleInternalTransfer` (lines 96–117): resolve
the requesting customer from the verified token's `sub` (falsy result, i.e.
lookup failure or id 0, is a 403), fetch the debit account's owner (404 on
absence), 403 unless the requester owns the debit account. Also returns the
datastore reads performed. -/
def authorizeTransfer (req : TransferRequest) (sub : String)
    (customerOf : String → Option Int) (dir : String → Option AccountInfo) :
    AuthOutcome × List Effect :=
  match customerOf sub with
  | none => (AuthOutcome.reject (forbidden "Could not identify requesting customer"),
      [Effect.readCustomer sub])
  | some cid =>
    if cid = 0 then
      (AuthOutcome.reject (forbidden "Could not identify requesting customer"),
        [Effect.readCustomer sub])
    else
      match dir req.fromAccountId with
      | none => (AuthOutcome.reject
          ⟨404, some ("Debit account not found: " ++ req.fromAccountId), none, none, none⟩,
          [Effect.readCustomer sub, Effect.readAccount req.fromAccountId])
      | some acct =>
        if acct.customer_id ≠ cid then
          (AuthOutcome.reject (forbidden "Forbidden: You do not own the source account."),
            [Effect.readCustomer sub, Effect.readAccount req.fromAccountId])
        else
          (AuthOutcome.proceed,
            [Effect.readCustomer sub, Effect.readAccount req.fromAccountId])

/-- What the handler decides to do before the RPC call: terminate with a
response, or post with the given arguments. The transaction id is the
freshly generated `crypto.randomUUID()` value (line 120), injected as
`uuid`; the posted currency is the request currency upper-cased (line 121). -/
inductive TransferPlan
  | reject (resp : TxResponse)
  | post (txId debitId creditId : String) (amount : Int) (currency : String)
deriving DecidableEq, Repr

def transferPlan (req : TransferRequest) (sub : String)
    (customerOf : String → Option Int) (dir : String → Option AccountInfo)
    (uuid : String) : TransferPlan × List Effect :=
  match validateTransfer req with
  | some resp => (TransferPlan.reject resp, [])
  | none =>
    match authorizeTransfer req sub customerOf dir with
    | (AuthOutcome.reject resp, tr) => (TransferPlan.reject resp, tr)
    | (AuthOutcome.proceed, tr) =>
      (TransferPlan.post uuid req.fromAccountId req.toAccountId
        (req.amount.getD 0) (jsToUpperCase req.currency), tr)

/-- RPC error translation (lines 138–140), modelling
`message.includes('EXCEPTION:') ? message.split('EXCEPTION:')[1].trim() : …`:
the segment between the first and second occurrence of the `EXCEPTION:`
marker, trimmed, when the marker is present; a generic text otherwise. -/
def dbErrorMessage (msg : String) : String :=
  match afterFirst "EXCEPTION:".toList msg.toList with
  | some rest => String.mk (trimChars (upToMarker "EXCEPTION:".toList rest))
  | none => "Transaction failed due to database error."

/-- The 422 response built on RPC failure (lines 143–150). -/
def rpcFailResponse (txId msg : String) : TxResponse :=
  ⟨422, some "Transaction failed.", some (dbErrorMessage msg), some txId, none⟩

/-- The 200 response built on RPC success (lines 155–161). -/
def successResponse (txId : String) : TxResponse :=
  ⟨200, none, none, some txId, some "COMPLETED"⟩

/-- `handleInternalTransfer` with the RPC outcome injected abstractly:
`rpcErr = some msg` means the `post_ledger_transaction` call failed with
message `msg`, `none` means it succeeded. Returns the response and the
datastore effect trace. -/
def handleInternalTransfer (req : TransferRequest) (sub : String)
    (customerOf : String → Option Int) (dir : String → Option AccountInfo)
    (uuid : String) (rpcErr : Option String) : TxResponse × List Effect :=
  match transferPlan req sub customerOf dir uuid with
  | (TransferPlan.reject resp, tr) => (resp, tr)
  | (TransferPlan.post txId d c amt cur, tr) =>
    match rpcErr with
    | some msg => (rpcFailResponse txId msg, tr ++ [Effect.rpcPost txId d c amt cur])
    | none => (successResponse txId, tr ++ [Effect.rpcPost txId d c amt cur])

/-- `handleInternalTransfer` composed with the spec-modelled ledger routine:
the RPC call runs `post_ledger_transaction` against the ledger state, and the
new ledger is returned alongside the response. -/
def transferStep (req : TransferRequest) (sub : String)
    (customerOf : String → Option Int) (dir : String → Option AccountInfo)
    (uuid : String) (l : List LedgerEntry) : TxResponse × List LedgerEntry :=
  match transferPlan req sub customerOf dir uuid with
  | (TransferPlan.reject resp, _) => (resp, l)
  | (TransferPlan.post txId d c amt cur, _) =>
    match post_ledger_transaction dir l txId d c amt cur with
    | Except.error f => (rpcFailResponse txId (rpcMessageOf f), l)
    | Except.ok l2 => (successResponse txId, l2)

/-- Sequential execution of the spec-modelled ledger routine for a list of
transaction ids with fixed parameters; per spec.md §5 the check-then-post
sequence is serialized per debit account, so any interleaving of concurrent
transfers is one such total order. -/
def runTransfers (dir : String → Option AccountInfo) (ids : List String)
    (debitId creditId : String) (amount : Int) (currency : String)
    (l : List LedgerEntry) : List (Except RpcFailure Unit) × List LedgerEntry :=
  match ids with
  | [] => ([], l)
  | id :: rest =>
    match post_ledger_transaction dir l id debitId creditId amount currency with
    | Except.error f =>
      let p := runTransfers dir rest debitId creditId amount currency l
      (Except.error f :: p.1, p.2)
    | Except.ok l1 =>
      let p := runTransfers dir rest debitId creditId amount currency l1
      (Except.ok () :: p.1, p.2)

/-! ## customer-service.js : account handlers -/

/-- Numeric value of a list of decimal digit characters. -/
def natOfDigits (ds : List Char) : Nat :=
  ds.foldl (fun a c => a * 10 + (c.toNat - 48)) 0

/-- Model of JavaScript `parseInt(s, 10)` restricted to the shapes the
handlers feed it: an optional leading minus sign followed by a longest run of
decimal digits; `none` models `NaN` (which compares unequal to every id). -/
def jsParseInt (s : String) : Option Int :=
  match s.toList with
  | '-' :: rest =>
    let d := rest.takeWhile (fun c => c.isDigit)
    if d = [] then none else some (-(natOfDigits d : Int))
  | cs =>
    let d := cs.takeWhile (fun c => c.isDigit)
    if d = [] then none else some (natOfDigits d : Int)

/-- Result of `generateUniqueAccountNumber`: a unique number, the thrown
database error, or the thrown exhaustion error after `maxRetries` collisions. -/
inductive AllocResult
  | ok (accountNumber : String)
  | dbError
  | exhausted
deriving DecidableEq, Repr

/-- `generateUniqueAccountNumber` (`customer-service.js` lines 246–272):
`draw i` is the i-th `crypto.randomInt` candidate, `check n` the existence
query for `n` (`none` = DB error, `some true` = exists/collision,
`some false` = free). First argument of the recursion is the loop index,
second the remaining retries (`maxRetries - i`). -/
def generateUniqueAccountNumber (draw : Nat → String) (check : String → Option Bool) :
    Nat → Nat → AllocResult
  | _, 0 => AllocResult.exhausted
  | i, k + 1 =>
    match check (draw i) with
    | none => AllocResult.dbError
    | some true => generateUniqueAccountNumber draw check (i + 1) k
    | some false => AllocResult.ok (draw i)

/-- Parsed JSON body of `POST /accounts` (line 285). -/
structure CreateAccountRequest where
  customerId : String
  accountType : String
  currency : String
  nickname : Option String
deriving DecidableEq, Repr

/-- The row payload `handleCreateAccount` inserts into `accounts`
(lines 310–317). -/
structure AccountInsert where
  customer_id : Int
  account_number : String
  account_type : String
  currency : String
  nickname : Option String
deriving DecidableEq, Repr

/-- HTTP-style response of the account handlers. -/
structure SimpleResponse where
  statusCode : Nat
  message : Option String
  details : Option String
deriving DecidableEq, Repr

/-- `handleCreateAccount` (lines 277–334): validation, authorization against
the token's customer, unique account-number allocation (5 retries), insert
with upper-cased currency. Returns the response and the inserted row payload
(`none` when nothing was inserted). `insertError` injects the outcome of the
insert statement. -/
def handleCreateAccount (req : CreateAccountRequest) (sub : String)
    (customerOf : String → Option Int) (draw : Nat → String)
    (check : String → Option Bool) (insertError : Option String) :
    SimpleResponse × Option AccountInsert :=
  if req.customerId = "" ∨ req.accountType = "" ∨ req.currency = "" then
    (⟨400, some "Missing customerId, accountType, or currency", none⟩, none)
  else if req.accountType ≠ "CHECKING" ∧ req.accountType ≠ "SAVINGS" then
    (⟨400, some "Invalid accountType", none⟩, none)
  else if req.currency.length ≠ 3 then
    (⟨400, some "Invalid currency code", none⟩, none)
  else
    match customerOf sub with
    | none => (⟨403, some "Forbidden: You can only create accounts for yourself.", none⟩, none)
    | some cid =>
      if cid = 0 ∨ jsParseInt req.customerId ≠ some cid then
        (⟨403, some "Forbidden: You can only create accounts for yourself.", none⟩, none)
      else
        match generateUniqueAccountNumber draw check 0 5 with
        | AllocResult.dbError =>
          (⟨500, some "Internal server error: Database error during account number generation", none⟩,
            none)
        | AllocResult.exhausted =>
          (⟨500,
            some "Internal server error: Failed to generate a unique account number after multiple attempts.",
            none⟩, none)
        | AllocResult.ok num =>
          match insertError with
          | some d => (⟨500, some "Database error creating account", some d⟩, none)
          | none =>
            (⟨201, none, none⟩,
              some ⟨cid, num, req.accountType, jsToUpperCase req.currency, req.nickname⟩)

/-- Summary row selected by `handleListAccounts` (line 355). -/
structure AccountSummary where
  id : String
  account_number : String
  account_type : String
  status : String
  currency : String
  nickname : Option String
deriving DecidableEq, Repr

/-- The JavaScript value placed in the response's `balance` field: a number,
or a string such as `"Error"`. -/
inductive BalanceVal
  | num (q : Int)
  | str (s : String)
deriving DecidableEq, Repr

structure AccountWithBalance where
  account : AccountSummary
  balance : BalanceVal
deriving DecidableEq, Repr

inductive ListAccountsResult
  | err (statusCode : Nat) (message : String)
  | ok (accounts : List AccountWithBalance)
deriving DecidableEq, Repr

/-- `handleListAccounts` (lines 336–392): authorization against the token's
customer, fetch the customer's accounts, then attach to each account the
balance computed by the `calculate_balance` RPC, or the string `"Error"` when
that RPC fails. `ok` is a 200 response. -/
def handleListAccounts (customerIdQuery : Option String) (sub : String)
    (customerOf : String → Option Int)
    (accountsOf : Int → Option (List AccountSummary))
    (calcBalanceRpc : String → Except String Int) : ListAccountsResult :=
  match customerIdQuery with
  | none => ListAccountsResult.err 400 "Missing customerId query parameter"
  | some q =>
    if q = "" then ListAccountsResult.err 400 "Missing customerId query parameter"
    else
      match customerOf sub with
      | none => ListAccountsResult.err 403 "Forbidden: You can only list your own accounts."
      | some cid =>
        if cid = 0 ∨ jsParseInt q ≠ some cid then
          ListAccountsResult.err 403 "Forbidden: You can only list your own accounts."
        else
          match accountsOf cid with
          | none => ListAccountsResult.err 500 "Database error listing accounts"
          | some accounts =>
            ListAccountsResult.ok (accounts.map (fun acc =>
              match calcBalanceRpc acc.id with
              | Except.error _ => ⟨acc, BalanceVal.str "Error"⟩
              | Except.ok b => ⟨acc, BalanceVal.num b⟩))

/-- Full account row selected by `handleGetAccount` (line 410). -/
structure AccountRow where
  id : String
  customer_id : Int
  account_number : String
  account_type : String
  status : String
  currency : String
  nickname : Option String
deriving DecidableEq, Repr

inductive GetAccountResult
  | err (statusCode : Nat) (message : String)
  | ok (account : AccountRow) (balance : BalanceVal)
deriving DecidableEq, Repr

/-- Last segment of the request path (`req.path.split('/')` and taking the
final element, lines 399–400): the characters after the last slash. -/
def lastPathSegment (path : String) : String :=
  String.mk ((path.toList.reverse.takeWhile (fun c => c != '/')).reverse)

/-- `handleGetAccount` (lines 394–458): account id from the path, fetch the
row (404 on absence), authorization against the token's customer, then the
balance from the `calculate_balance` RPC with the string `"Error"` as the
default kept when that RPC fails. `ok` is a 200 response. -/
def handleGetAccount (path : String) (sub : String)
    (customerOf : String → Option Int) (getAccount : String → Option AccountRow)
    (calcBalanceRpc : String → Except String Int) : GetAccountResult :=
  let accountId := lastPathSegment path
  if accountId = "" ∨ accountId.length < 10 then
    GetAccountResult.err 400 "Missing or invalid account ID in path"
  else
    match getAccount accountId with
    | none => GetAccountResult.err 404 "Account not found"
    | some acct =>
      match customerOf sub with
      | none => GetAccountResult.err 403 "Forbidden: You can only view your own accounts."
      | some cid =>
        if cid = 0 ∨ cid ≠ acct.customer_id then
          GetAccountResult.err 403 "Forbidden: You can only view your own accounts."
        else
          match calcBalanceRpc acct.id with
          | Except.error _ => GetAccountResult.ok acct (BalanceVal.str "Error")
          | Except.ok b => GetAccountResult.ok acct (BalanceVal.num b)

/-! ## Spec-side comparison definitions -/

/-- Spec-side definition (spec.md §4.3 step 1, for comparison with the code's
validation): a well-formed 3-letter currency code is exactly three alphabetic
characters. -/
def wellFormed3LetterCode (s : String) : Prop :=
  s.length = 3 ∧ ∀ c ∈ s.toList, c.isAlpha

instance (s : String) : Decidable (wellFormed3LetterCode s) :=
  inferInstanceAs (Decidable (_ ∧ _))

/-! ## Helper lemmas about the transfer handler -/

theorem validateTransfer_statusCode (r : TransferRequest) (resp : TxResponse)
    (h : validateTransfer r = some resp) : resp.statusCode = 400 := by
  unfold validateTransfer at h
  split_ifs at h <;> exact (Option.some.inj h) ▸ rfl

theorem validateTransfer_some_of (r : TransferRequest)
    (h : r.amount.getD 0 ≤ 0 ∨ r.fromAccountId = r.toAccountId ∨ r.currency.length ≠ 3) :
    ∃ resp, validateTransfer r = some resp := by
  unfold validateTransfer
  split_ifs with h1 h2 h3 h4
  · exact ⟨_, rfl⟩
  · exact ⟨_, rfl⟩
  · exact ⟨_, rfl⟩
  · exact ⟨_, rfl⟩
  · rcases h with h | h | h
    · exact absurd h h2
    · exact absurd h h3
    · exact absurd h h4

theorem validateTransfer_none_facts (r : TransferRequest)
    (h : validateTransfer r = none) :
    r.fromAccountId ≠ r.toAccountId ∧ r.currency.length = 3 ∧ 0 < r.amount.getD 0 := by
  unfold validateTransfer at h
  split_ifs at h with h1 h2 h3 h4
  exact ⟨h3, by omega, by omega⟩

theorem handleInternalTransfer_of_validate_some (req : TransferRequest)
    (sub : String) (co : String → Option Int) (dir : String → Option AccountInfo)
    (uuid : String) (rpcErr : Option String) (resp : TxResponse)
    (h : validateTransfer req = some resp) :
    handleInternalTransfer req sub co dir uuid rpcErr = (resp, []) := by
  simp [handleInternalTransfer, transferPlan, h]

theorem handleInternalTransfer_of_auth_reject (req : TransferRequest)
    (sub : String) (co : String → Option Int) (dir : String → Option AccountInfo)
    (uuid : String) (rpcErr : Option String) (resp : TxResponse) (tr : List Effect)
    (hv : validateTransfer req = none)
    (ha : authorizeTransfer req sub co dir = (AuthOutcome.reject resp, tr)) :
    handleInternalTransfer req sub co dir uuid rpcErr = (resp, tr) := by
  simp [handleInternalTransfer, transferPlan, hv, ha]

theorem handleInternalTransfer_of_proceed (req : TransferRequest)
    (sub : String) (co : String → Option Int) (dir : String → Option AccountInfo)
    (uuid : String) (rpcErr : Option String) (tr : List Effect)
    (hv : validateTransfer req = none)
    (ha : authorizeTransfer req sub co dir = (AuthOutcome.proceed, tr)) :
    handleInternalTransfer req sub co dir uuid rpcErr =
      ((match rpcErr with
        | some msg => rpcFailResponse uuid msg
        | none => successResponse uuid),
       tr ++ [Effect.rpcPost uuid req.fromAccountId req.toAccountId
         (req.amount.getD 0) (jsToUpperCase req.currency)]) := by
  cases rpcErr <;> simp [handleInternalTransfer, transferPlan, hv, ha]

/-! ## Claim C5 -/

/-- Claim C5 counterexample: with currency `"123"` — three characters, none of
them a letter, hence not a well-formed 3-letter code — the handler does not
reject: validation passes, the request reaches the ledger posting call and
(with a succeeding RPC) returns 200. -/
def req5 : TransferRequest := ⟨"acc-from", "acc-to", some 50, "123", none⟩

def custC : String → Option Int := fun s => if s = "sub-1" then some 7 else none

def dirC : String → Option AccountInfo := fun s =>
  if s = "acc-from" then some ⟨7, "USD", "ACTIVE"⟩
  else if s = "acc-to" then some ⟨9, "USD", "ACTIVE"⟩
  else none

/-- A concrete ledger in which the debit account `acc-from` holds an opening
balance of 100 (posted as a balanced seed transaction). -/
def ledgerC : List LedgerEntry :=
  [⟨"seed", "ext", Direction.debit, 100, "USD"⟩,
   ⟨"seed", "acc-from", Direction.credit, 100, "USD"⟩]

/-- Claim C5 counterexample: the claim says a request whose currency is not a
well-formed 3-letter code is rejected with `InvalidInput`; currency `"123"` is
not a well-formed 3-letter code, yet the transfer is accepted (HTTP 200) and
the posting RPC is invoked. Only the length of the currency is validated. -/
theorem currency_letters_not_validated_counterexample :
    ¬ wellFormed3LetterCode req5.currency ∧
    (handleInternalTransfer req5 "sub-1" custC dirC "u5" none).1.statusCode = 200 ∧
    Effect.rpcPost "u5" "acc-from" "acc-to" 50 "123" ∈
      (handleInternalTransfer req5 "sub-1" custC dirC "u5" none).2 := by decide

/-- Claim C5 (amended): the engine rejects with a 400 client error, before any
datastore access (empty effect trace, hence before any write), whenever the
amount is not strictly positive, or the currency does not have length 3, or
the debit and credit account identifiers are equal. (The code checks only the
currency's length, not that its characters are letters.) -/
theorem transfer_validation_rejects_before_write (req : TransferRequest)
    (sub : String) (co : String → Option Int) (dir : String → Option AccountInfo)
    (uuid : String) (rpcErr : Option String)
    (h : req.amount.getD 0 ≤ 0 ∨ req.fromAccountId = req.toAccountId ∨
      req.currency.length ≠ 3) :
    (handleInternalTransfer req sub co dir uuid rpcErr).1.statusCode = 400 ∧
    (handleInternalTransfer req sub co dir uuid rpcErr).2 = [] := by
  obtain ⟨resp, hr⟩ := validateTransfer_some_of req h
  rw [handleInternalTransfer_of_validate_some req sub co dir uuid rpcErr resp hr]
  exact ⟨validateTransfer_statusCode req resp hr, rfl⟩

theorem transfer_validation_rejects_before_write_witness :
    ((handleInternalTransfer ⟨"a", "b", some 50, "EU", none⟩ "sub-1" custC dirC "u" none).1.statusCode = 400 ∧
     (handleInternalTransfer ⟨"a", "b", some 50, "EU", none⟩ "sub-1" custC dirC "u" none).2 = []) :=
  transfer_validation_rejects_before_write ⟨"a", "b", some 50, "EU", none⟩
    "sub-1" custC dirC "u" none (by decide)

/-! ## Claim C6 -/

/-- Claim C6 (confirmed): a transfer request with `fromAccountId` equal to
`toAccountId` is rejected with a 400 client error and the handler performs no
datastore operation at all — the effect trace is empty, so in particular
neither account is looked up. -/
theorem self_transfer_rejected_before_lookup (req : TransferRequest)
    (sub : String) (co : String → Option Int) (dir : String → Option AccountInfo)
    (uuid : String) (rpcErr : Option String)
    (h : req.fromAccountId = req.toAccountId) :
    (handleInternalTransfer req sub co dir uuid rpcErr).1.statusCode = 400 ∧
    (handleInternalTransfer req sub co dir uuid rpcErr).2 = [] := by
  obtain ⟨resp, hr⟩ := validateTransfer_some_of req (Or.inr (Or.inl h))
  rw [handleInternalTransfer_of_validate_some req sub co dir uuid rpcErr resp hr]
  exact ⟨validateTransfer_statusCode req resp hr, rfl⟩

theorem self_transfer_rejected_before_lookup_witness :
    ((handleInternalTransfer ⟨"same", "same", some 5, "USD", none⟩ "sub-1" custC dirC "u" none).1.statusCode = 400 ∧
     (handleInternalTransfer ⟨"same", "same", some 5, "USD", none⟩ "sub-1" custC dirC "u" none).2 = []) :=
  self_transfer_rejected_before_lookup ⟨"same", "same", some 5, "USD", none⟩
    "sub-1" custC dirC "u" none rfl

/-! ## Claim C9 -/

theorem authorizeTransfer_trace (req : TransferRequest) (sub : String)
    (co : String → Option Int) (dir : String → Option AccountInfo) :
    (authorizeTransfer req sub co dir).2 = [Effect.readCustomer sub] ∨
    (authorizeTransfer req sub co dir).2 =
      [Effect.readCustomer sub, Effect.readAccount req.fromAccountId] := by
  unfold authorizeTransfer
  cases co sub with
  | none => exact Or.inl rfl
  | some cid =>
    by_cases h0 : cid = 0
    · simp only [if_pos h0]
      exact Or.inl (by trivial)
    · simp only [if_neg h0]
      cases dir req.fromAccountId with
      | none => exact Or.inr rfl
      | some acct =>
        by_cases hown : acct.customer_id ≠ cid
        · simp only [if_pos hown]
          exact Or.inr (by trivial)
        · simp only [if_neg hown]
          exact Or.inr (by trivial)

theorem authorizeTransfer_mismatch (req : TransferRequest) (sub : String)
    (co : String → Option Int) (dir : String → Option AccountInfo)
    (cid : Int) (acct : AccountInfo)
    (hc : co sub = some cid) (h0 : cid ≠ 0)
    (hacc : dir req.fromAccountId = some acct) (hne : acct.customer_id ≠ cid) :
    authorizeTransfer req sub co dir =
      (AuthOutcome.reject (forbidden "Forbidden: You do not own the source account."),
       [Effect.readCustomer sub, Effect.readAccount req.fromAccountId]) := by
  simp [authorizeTransfer, hc, h0, hacc, hne]

/-- Claim C9 (confirmed, implicit behavior): the transfer handler (1) never
reads the credit account from the datastore — `readAccount toAccountId` is in
no reachable effect trace, so no ownership or existence check happens on the
credit side before the ledger posting call; (2) once validation passes it
resolves the requesting customer from the verified token's `sub`; and (3)
when the debit account exists but is owned by a different customer than the
one resolved from the token, the response is the 403 Forbidden rejection. -/
theorem transfer_auth_checks_debit_only (req : TransferRequest) (sub : String)
    (co : String → Option Int) (dir : String → Option AccountInfo)
    (uuid : String) (rpcErr : Option String) :
    Effect.readAccount req.toAccountId ∉ (handleInternalTransfer req sub co dir uuid rpcErr).2 ∧
    (validateTransfer req = none →
      Effect.readCustomer sub ∈ (handleInternalTransfer req sub co dir uuid rpcErr).2) ∧
    (∀ cid acct, validateTransfer req = none → co sub = some cid → cid ≠ 0 →
      dir req.fromAccountId = some acct → acct.customer_id ≠ cid →
      (handleInternalTransfer req sub co dir uuid rpcErr).1 =
        forbidden "Forbidden: You do not own the source account.") := by
  refine ⟨?_, ?_, ?_⟩
  · cases hv : validateTransfer req with
    | some resp =>
      rw [handleInternalTransfer_of_validate_some req sub co dir uuid rpcErr resp hv]
      simp
    | none =>
      have hne : req.toAccountId ≠ req.fromAccountId :=
        Ne.symm (validateTransfer_none_facts req hv).1
      rcases ha : authorizeTransfer req sub co dir with ⟨out, tr⟩
      have htr := authorizeTransfer_trace req sub co dir
      rw [ha] at htr
      cases out with
      | reject resp =>
        rw [handleInternalTransfer_of_auth_reject req sub co dir uuid rpcErr resp tr hv ha]
        rcases htr with h | h <;> subst h <;> simp [hne]
      | proceed =>
        rw [handleInternalTransfer_of_proceed req sub co dir uuid rpcErr tr hv ha]
        rcases htr with h | h <;> subst h <;> simp [hne]
  · intro hv
    rcases ha : authorizeTransfer req sub co dir with ⟨out, tr⟩
    have htr := authorizeTransfer_trace req sub co dir
    rw [ha] at htr
    cases out with
    | reject resp =>
      rw [handleInternalTransfer_of_auth_reject req sub co dir uuid rpcErr resp tr hv ha]
      rcases htr with h | h <;> subst h <;> simp
    | proceed =>
      rw [handleInternalTransfer_of_proceed req sub co dir uuid rpcErr tr hv ha]
      rcases htr with h | h <;> subst h <;> simp
  · intro cid acct hv hc h0 hacc hne
    rw [handleInternalTransfer_of_auth_reject req sub co dir uuid rpcErr _ _ hv
      (authorizeTransfer_mismatch req sub co dir cid acct hc h0 hacc hne)]

theorem transfer_auth_checks_debit_only_witness :
    (Effect.readAccount "acc-to" ∉
      (handleInternalTransfer ⟨"acc-from", "acc-to", some 10, "USD", none⟩
        "sub-1" custC dirC "u9" none).2) ∧
    (handleInternalTransfer ⟨"acc-from", "acc-to", some 10, "USD", none⟩
        "sub-2" (fun s => if s = "sub-2" then some 8 else none) dirC "u9" none).1 =
      forbidden "Forbidden: You do not own the source account." := by
  constructor
  · exact (transfer_auth_checks_debit_only ⟨"acc-from", "acc-to", some 10, "USD", none⟩
      "sub-1" custC dirC "u9" none).1
  · exact (transfer_auth_checks_debit_only ⟨"acc-from", "acc-to", some 10, "USD", none⟩
      "sub-2" (fun s => if s = "sub-2" then some 8 else none) dirC "u9" none).2.2
      8 ⟨7, "USD", "ACTIVE"⟩ (by decide) (by decide) (by decide) (by decide) (by decide)

/-! ## Claim C10 -/

/-- Claim C10 (confirmed, implicit behavior): currency codes are accepted
case-insensitively — transfer validation depends on the currency only through
its length — and both services normalize to upper case before persisting:
(1) the transfer handler's posting RPC receives `jsToUpperCase` of the input
currency; (2) any row payload `handleCreateAccount` inserts carries
`jsToUpperCase` of the input currency; (3) replacing the currency of a
length-3 request by any other length-3 string leaves validation unchanged. -/
theorem currency_normalized_upper :
    (∀ (req : TransferRequest) (sub : String) (co : String → Option Int)
       (dir : String → Option AccountInfo) (uuid : String) (rpcErr : Option String)
       (tr : List Effect),
       validateTransfer req = none →
       authorizeTransfer req sub co dir = (AuthOutcome.proceed, tr) →
       Effect.rpcPost uuid req.fromAccountId req.toAccountId (req.amount.getD 0)
           (jsToUpperCase req.currency) ∈
         (handleInternalTransfer req sub co dir uuid rpcErr).2) ∧
    (∀ (req : CreateAccountRequest) (sub : String) (co : String → Option Int)
       (draw : Nat → String) (check : String → Option Bool) (ie : Option String)
       (p : AccountInsert),
       (handleCreateAccount req sub co draw check ie).2 = some p →
       p.currency = jsToUpperCase req.currency) ∧
    (∀ (r : TransferRequest) (c2 : String), r.currency.length = 3 → c2.length = 3 →
       validateTransfer ⟨r.fromAccountId, r.toAccountId, r.amount, c2, r.description⟩ =
         validateTransfer r) := by
  refine ⟨?_, ?_, ?_⟩
  · intro req sub co dir uuid rpcErr tr hv ha
    rw [handleInternalTransfer_of_proceed req sub co dir uuid rpcErr tr hv ha]
    simp
  · intro req sub co draw check ie p h
    unfold handleCreateAccount at h
    split_ifs at h
    split at h
    · simp at h
    · split_ifs at h
      split at h
      · simp at h
      · simp at h
      · split at h
        · simp at h
        · have h2 := Option.some.inj h
          rw [← h2]
  · intro r c2 h1 h2
    have e1 : r.currency ≠ "" := fun e => by rw [e] at h1; exact absurd h1 (by decide)
    have e2 : c2 ≠ "" := fun e => by rw [e] at h2; exact absurd h2 (by decide)
    simp [validateTransfer, e1, e2, h1, h2]

theorem currency_normalized_upper_witness :
    (Effect.rpcPost "u10" "acc-from" "acc-to" 10 "USD" ∈
      (handleInternalTransfer ⟨"acc-from", "acc-to", some 10, "usd", none⟩
        "sub-1" custC dirC "u10" none).2) ∧
    ((handleCreateAccount ⟨"7", "CHECKING", "usd", none⟩ "sub-1" custC
        (fun i => toString i) (fun _ => some false) none).2.map AccountInsert.currency =
      some "USD") := by
  constructor
  · have h := (currency_normalized_upper).1
      ⟨"acc-from", "acc-to", some 10, "usd", none⟩ "sub-1" custC dirC "u10" none
      [Effect.readCustomer "sub-1", Effect.readAccount "acc-from"]
      (by decide) (by decide)
    exact h
  · have h := (currency_normalized_upper).2.1
      ⟨"7", "CHECKING", "usd", none⟩ "sub-1" custC (fun i => toString i)
      (fun _ => some false) none ⟨7, "0", "CHECKING", "USD", none⟩ (by decide)
    simp [h]
    decide

/-! ## Claim C7 -/

/-- A well-formed transfer request against the shared fixtures, used as the
concrete input of several claims. -/
def reqC : TransferRequest := ⟨"acc-from", "acc-to", some 10, "USD", none⟩

/-- Claim C7 counterexample: the DB rejection message `"Insufficient funds"`
(no `EXCEPTION:` marker, as PostgREST delivers the raised message itself) is
not surfaced verbatim: the caller receives the generic
`"Transaction failed."` / `"Transaction failed due to database error."`
response, with the insufficient-funds text appearing nowhere. -/
theorem insufficient_funds_masked_counterexample :
    (handleInternalTransfer reqC "sub-1" custC dirC "u7" (some "Insufficient funds")).1 =
      ⟨422, some "Transaction failed.", some "Transaction failed due to database error.",
        some "u7", none⟩ ∧
    (handleInternalTransfer reqC "sub-1" custC dirC "u7" (some "Insufficient funds")).1.details ≠
      some "Insufficient funds" := by decide

/-- Claim C7 (amended): when the posting RPC fails, the handler responds 422
with top-level message `"Transaction failed."` and a `details` field derived
from the DB error text by `dbErrorMessage`: the trimmed segment after the
first `EXCEPTION:` marker when that marker occurs in the message, and the
generic `"Transaction failed due to database error."` otherwise — so an
`InsufficientFunds` rejection is surfaced only in that derived form, not
verbatim. -/
theorem rpc_error_detail_translation (req : TransferRequest) (sub : String)
    (co : String → Option Int) (dir : String → Option AccountInfo)
    (uuid msg : String) (tr : List Effect)
    (hv : validateTransfer req = none)
    (ha : authorizeTransfer req sub co dir = (AuthOutcome.proceed, tr)) :
    (handleInternalTransfer req sub co dir uuid (some msg)).1 =
      ⟨422, some "Transaction failed.", some (dbErrorMessage msg), some uuid, none⟩ := by
  rw [handleInternalTransfer_of_proceed req sub co dir uuid (some msg) tr hv ha]
  rfl

theorem rpc_error_detail_translation_witness :
    (handleInternalTransfer reqC "sub-1" custC dirC "u7b"
        (some "P0001 EXCEPTION: Insufficient funds in account acc-from")).1 =
      ⟨422, some "Transaction failed.",
        some (dbErrorMessage "P0001 EXCEPTION: Insufficient funds in account acc-from"),
        some "u7b", none⟩ :=
  rpc_error_detail_translation reqC "sub-1" custC dirC "u7b"
    "P0001 EXCEPTION: Insufficient funds in account acc-from"
    [Effect.readCustomer "sub-1", Effect.readAccount "acc-from"]
    (by decide) (by decide)

/-! ## Claim C2 -/

/-- The double-entry invariant of spec.md §3: every posted transaction id
groups exactly two entries — a DEBIT then a CREDIT — with equal amount and
equal currency. -/
def balancedLedger (l : List LedgerEntry) : Prop :=
  ∀ tid, tid ∈ postedIds l →
    ∃ d c, entriesFor l tid = [d, c] ∧ d.direction = Direction.debit ∧
      c.direction = Direction.credit ∧ d.amount = c.amount ∧ d.currency = c.currency

theorem entriesFor_append (l l2 : List LedgerEntry) (tid : String) :
    entriesFor (l ++ l2) tid = entriesFor l tid ++ entriesFor l2 tid := by
  simp [entriesFor]

theorem entriesFor_eq_nil_of_not_posted (l : List LedgerEntry) (tid : String)
    (h : tid ∉ postedIds l) : entriesFor l tid = [] := by
  unfold entriesFor
  rw [List.filter_eq_nil_iff]
  intro e he
  simp only [beq_iff_eq]
  intro heq
  exact h (List.mem_map.mpr ⟨e, he, heq⟩)

theorem post_ledger_transaction_ok_inv (dir : String → Option AccountInfo)
    (l : List LedgerEntry) (txId dId cId : String) (amt : Int) (cur : String)
    (l2 : List LedgerEntry)
    (h : post_ledger_transaction dir l txId dId cId amt cur = Except.ok l2) :
    ∃ da ca, dir dId = some da ∧ dir cId = some ca ∧
      da.status = "ACTIVE" ∧ ca.status = "ACTIVE" ∧
      da.currency = cur ∧ ca.currency = cur ∧
      ¬ calculate_balance l dId < amt ∧ txId ∉ postedIds l ∧
      l2 = l ++ [⟨txId, dId, Direction.debit, amt, cur⟩,
                 ⟨txId, cId, Direction.credit, amt, cur⟩] := by
  unfold post_ledger_transaction at h
  split at h
  · rename_i da ca heqd heqc
    split_ifs at h with h1 h2 h3 h4
    push_neg at h1 h2
    exact ⟨da, ca, heqd, heqc, h1.1, h1.2, h2.1, h2.2, h3, h4,
      (Except.ok.inj h).symm⟩
  · simp at h

theorem post_ok_of_facts (dir : String → Option AccountInfo)
    (l : List LedgerEntry) (t d c : String) (amt : Int) (cur : String)
    (da ca : AccountInfo)
    (hd : dir d = some da) (hc : dir c = some ca)
    (hs1 : da.status = "ACTIVE") (hs2 : ca.status = "ACTIVE")
    (hcu1 : da.currency = cur) (hcu2 : ca.currency = cur)
    (hbal : ¬ calculate_balance l d < amt) (hfresh : t ∉ postedIds l) :
    post_ledger_transaction dir l t d c amt cur =
      Except.ok (l ++ [⟨t, d, Direction.debit, amt, cur⟩,
                       ⟨t, c, Direction.credit, amt, cur⟩]) := by
  unfold post_ledger_transaction
  rw [hd, hc]
  simp [hs1, hs2, hcu1, hcu2, hbal, hfresh]

/-- Claim C2 (confirmed, spec-modelled store): posting preserves the
double-entry invariant, and the posted transaction id groups exactly the
balanced DEBIT/CREDIT pair — equal amount, equal currency, opposite
direction — after every successful transfer. -/
theorem post_preserves_double_entry (dir : String → Option AccountInfo)
    (l : List LedgerEntry) (txId dId cId : String) (amt : Int) (cur : String)
    (l2 : List LedgerEntry)
    (hinv : balancedLedger l)
    (h : post_ledger_transaction dir l txId dId cId amt cur = Except.ok l2) :
    balancedLedger l2 ∧
    entriesFor l2 txId =
      [⟨txId, dId, Direction.debit, amt, cur⟩,
       ⟨txId, cId, Direction.credit, amt, cur⟩] := by
  obtain ⟨da, ca, _, _, _, _, _, _, _, hfresh, rfl⟩ :=
    post_ledger_transaction_ok_inv dir l txId dId cId amt cur l2 h
  have hnew : entriesFor (l ++ [⟨txId, dId, Direction.debit, amt, cur⟩,
      ⟨txId, cId, Direction.credit, amt, cur⟩]) txId =
      [⟨txId, dId, Direction.debit, amt, cur⟩,
       ⟨txId, cId, Direction.credit, amt, cur⟩] := by
    rw [entriesFor_append, entriesFor_eq_nil_of_not_posted l txId hfresh]
    simp [entriesFor]
  refine ⟨?_, hnew⟩
  intro tid htid
  rw [postedIds, List.map_append] at htid
  rcases List.mem_append.mp htid with hold | hnewid
  · have hne : tid ≠ txId := fun e => hfresh (e ▸ hold)
    have hsame : entriesFor (l ++ [⟨txId, dId, Direction.debit, amt, cur⟩,
        ⟨txId, cId, Direction.credit, amt, cur⟩]) tid = entriesFor l tid := by
      rw [entriesFor_append]
      have hz : entriesFor [⟨txId, dId, Direction.debit, amt, cur⟩,
          ⟨txId, cId, Direction.credit, amt, cur⟩] tid = [] := by
        simp [entriesFor, Ne.symm hne]
      rw [hz, List.append_nil]
    rw [hsame]
    exact hinv tid hold
  · have htx : tid = txId := by simpa using hnewid
    subst htx
    exact ⟨_, _, hnew, rfl, rfl, rfl, rfl⟩

theorem post_preserves_double_entry_witness :
    entriesFor (ledgerC ++ [⟨"t1", "acc-from", Direction.debit, 10, "USD"⟩,
        ⟨"t1", "acc-to", Direction.credit, 10, "USD"⟩]) "t1" =
      [⟨"t1", "acc-from", Direction.debit, 10, "USD"⟩,
       ⟨"t1", "acc-to", Direction.credit, 10, "USD"⟩] :=
  (post_preserves_double_entry dirC ledgerC "t1" "acc-from" "acc-to" 10 "USD"
    (ledgerC ++ [⟨"t1", "acc-from", Direction.debit, 10, "USD"⟩,
            ⟨"t1", "acc-to", Direction.credit, 10, "USD"⟩])
    (by
      intro tid htid
      have ht : tid = "seed" := by simpa [ledgerC, postedIds] using htid
      subst ht
      exact ⟨⟨"seed", "ext", Direction.debit, 100, "USD"⟩,
        ⟨"seed", "acc-from", Direction.credit, 100, "USD"⟩,
        by decide, rfl, rfl, rfl, rfl⟩)
    (by decide)).2

/-! ## Claim C1 -/

theorem transferStep_post_ok (req : TransferRequest) (sub : String)
    (co : String → Option Int) (dir : String → Option AccountInfo)
    (uuid : String) (l l2 : List LedgerEntry) (tr : List Effect)
    (hv : validateTransfer req = none)
    (ha : authorizeTransfer req sub co dir = (AuthOutcome.proceed, tr))
    (hp : post_ledger_transaction dir l uuid req.fromAccountId req.toAccountId
      (req.amount.getD 0) (jsToUpperCase req.currency) = Except.ok l2) :
    transferStep req sub co dir uuid l = (successResponse uuid, l2) := by
  simp [transferStep, transferPlan, hv, ha, hp]

theorem transferStep_post_err (req : TransferRequest) (sub : String)
    (co : String → Option Int) (dir : String → Option AccountInfo)
    (uuid : String) (l : List LedgerEntry) (tr : List Effect) (f : RpcFailure)
    (hv : validateTransfer req = none)
    (ha : authorizeTransfer req sub co dir = (AuthOutcome.proceed, tr))
    (hp : post_ledger_transaction dir l uuid req.fromAccountId req.toAccountId
      (req.amount.getD 0) (jsToUpperCase req.currency) = Except.error f) :
    transferStep req sub co dir uuid l = (rpcFailResponse uuid (rpcMessageOf f), l) := by
  simp [transferStep, transferPlan, hv, ha, hp]

theorem post_same_id_errors (dir : String → Option AccountInfo)
    (l : List LedgerEntry) (t d c : String) (amt : Int) (cur : String)
    (l1 : List LedgerEntry)
    (h : post_ledger_transaction dir l t d c amt cur = Except.ok l1) :
    ∃ f, post_ledger_transaction dir l1 t d c amt cur = Except.error f := by
  obtain ⟨da, ca, hd, hc, hs1, hs2, hcu1, hcu2, _, _, rfl⟩ :=
    post_ledger_transaction_ok_inv dir l t d c amt cur l1 h
  by_cases hb : calculate_balance (l ++ [⟨t, d, Direction.debit, amt, cur⟩,
      ⟨t, c, Direction.credit, amt, cur⟩]) d < amt
  · refine ⟨RpcFailure.insufficientFunds, ?_⟩
    unfold post_ledger_transaction
    rw [hd, hc]
    simp [hs1, hs2, hcu1, hcu2, hb]
  · refine ⟨RpcFailure.conflict, ?_⟩
    have hmem : t ∈ postedIds (l ++ [⟨t, d, Direction.debit, amt, cur⟩,
        ⟨t, c, Direction.credit, amt, cur⟩]) := by
      simp [postedIds]
    unfold post_ledger_transaction
    rw [hd, hc]
    simp [hs1, hs2, hcu1, hcu2, hb, hmem]

/-- Claim C1 counterexample: two transfer calls with identical parameters and
the same transaction id (`"uuid-1"`, the generated id repeating) do not yield
the same outcome: the first returns 200 `COMPLETED`, the second — the store
reporting the duplicate id — returns 422, a different outcome. The service
reads no transaction id from the request body (`TransferRequest` has no such
field, transaction-service.js line 78 destructures only fromAccountId,
toAccountId, amount, currency, description), so idempotent retry by
caller-supplied identifier does not exist. -/
theorem transfer_idempotence_counterexample :
    (transferStep reqC "sub-1" custC dirC "uuid-1" ledgerC).1 = successResponse "uuid-1" ∧
    (transferStep reqC "sub-1" custC dirC "uuid-1"
      (transferStep reqC "sub-1" custC dirC "uuid-1" ledgerC).2).1.statusCode = 422 ∧
    (transferStep reqC "sub-1" custC dirC "uuid-1"
        (transferStep reqC "sub-1" custC dirC "uuid-1" ledgerC).2).1 ≠
      (transferStep reqC "sub-1" custC dirC "uuid-1" ledgerC).1 := by decide

/-- Claim C1 (amended): transfer is not idempotent. The handler generates a
fresh transaction id per call and ignores any caller-supplied identifier.
For any first call that posts successfully: replaying it with the same
generated id yields a 422 `Transaction failed.` response — not the original
outcome — and a retry with a fresh id (that passes the sufficiency check)
posts a second, independent transaction, leaving four new ledger entries in
total rather than two. -/
theorem transfer_retry_not_idempotent (req : TransferRequest) (sub : String)
    (co : String → Option Int) (dir : String → Option AccountInfo)
    (u1 u2 : String) (l l1 : List LedgerEntry) (tr : List Effect)
    (hv : validateTransfer req = none)
    (ha : authorizeTransfer req sub co dir = (AuthOutcome.proceed, tr))
    (h1 : post_ledger_transaction dir l u1 req.fromAccountId req.toAccountId
      (req.amount.getD 0) (jsToUpperCase req.currency) = Except.ok l1) :
    transferStep req sub co dir u1 l = (successResponse u1, l1) ∧
    (transferStep req sub co dir u1 l1).1.statusCode = 422 ∧
    (u2 ∉ postedIds l1 →
      ¬ calculate_balance l1 req.fromAccountId < req.amount.getD 0 →
      (transferStep req sub co dir u2 l1).1 = successResponse u2 ∧
      (transferStep req sub co dir u2 l1).2.length = l.length + 4) := by
  obtain ⟨da, ca, hd, hc, hs1, hs2, hcu1, hcu2, _, _, hl1⟩ :=
    post_ledger_transaction_ok_inv dir l u1 req.fromAccountId req.toAccountId
      (req.amount.getD 0) (jsToUpperCase req.currency) l1 h1
  refine ⟨transferStep_post_ok req sub co dir u1 l l1 tr hv ha h1, ?_, ?_⟩
  · obtain ⟨f, hf⟩ := post_same_id_errors dir l u1 req.fromAccountId
      req.toAccountId (req.amount.getD 0) (jsToUpperCase req.currency) l1 h1
    rw [transferStep_post_err req sub co dir u1 l1 tr f hv ha hf]
    rfl
  · intro hfresh2 hbal2
    have h2 := post_ok_of_facts dir l1 u2 req.fromAccountId req.toAccountId
      (req.amount.getD 0) (jsToUpperCase req.currency) da ca hd hc hs1 hs2
      hcu1 hcu2 hbal2 hfresh2
    rw [transferStep_post_ok req sub co dir u2 l1 _ tr hv ha h2]
    subst hl1
    simp

theorem transfer_retry_not_idempotent_witness :
    transferStep reqC "sub-1" custC dirC "u1" ledgerC =
      (successResponse "u1",
        ledgerC ++ [⟨"u1", "acc-from", Direction.debit, 10, "USD"⟩,
          ⟨"u1", "acc-to", Direction.credit, 10, "USD"⟩]) ∧
    (transferStep reqC "sub-1" custC dirC "u1"
      (ledgerC ++ [⟨"u1", "acc-from", Direction.debit, 10, "USD"⟩,
        ⟨"u1", "acc-to", Direction.credit, 10, "USD"⟩])).1.statusCode = 422 ∧
    ((transferStep reqC "sub-1" custC dirC "u2"
        (ledgerC ++ [⟨"u1", "acc-from", Direction.debit, 10, "USD"⟩,
          ⟨"u1", "acc-to", Direction.credit, 10, "USD"⟩])).1 = successResponse "u2" ∧
      (transferStep reqC "sub-1" custC dirC "u2"
        (ledgerC ++ [⟨"u1", "acc-from", Direction.debit, 10, "USD"⟩,
          ⟨"u1", "acc-to", Direction.credit, 10, "USD"⟩])).2.length = ledgerC.length + 4) := by
  have h := transfer_retry_not_idempotent reqC "sub-1" custC dirC "u1" "u2"
    ledgerC
    (ledgerC ++ [⟨"u1", "acc-from", Direction.debit, 10, "USD"⟩,
      ⟨"u1", "acc-to", Direction.credit, 10, "USD"⟩])
    [Effect.readCustomer "sub-1", Effect.readAccount "acc-from"]
    (by decide) (by decide) (by decide)
  exact ⟨h.1, h.2.1, h.2.2 (by decide) (by decide)⟩

/-! ## Claim C3 -/

/-- Directory for the C3 scenario: two ACTIVE USD accounts `A` and `B`. -/
def dir3 : String → Option AccountInfo := fun s =>
  if s = "A" then some ⟨1, "USD", "ACTIVE"⟩
  else if s = "B" then some ⟨2, "USD", "ACTIVE"⟩
  else none

/-- Ledger for the C3 scenario: `A` holds exactly 10 (one balanced seed
transaction). -/
def ledger3 : List LedgerEntry :=
  [⟨"seed", "ext", Direction.debit, 10, "USD"⟩,
   ⟨"seed", "A", Direction.credit, 10, "USD"⟩]

theorem calculate_balance_append (l p : List LedgerEntry) (a : String) :
    calculate_balance (l ++ p) a = calculate_balance l a + calculate_balance p a := by
  simp [calculate_balance]

theorem post3_insufficient (l : List LedgerEntry) (id : String)
    (h : calculate_balance l "A" < 10) :
    post_ledger_transaction dir3 l id "A" "B" 10 "USD" =
      Except.error RpcFailure.insufficientFunds := by
  have hA : dir3 "A" = some ⟨1, "USD", "ACTIVE"⟩ := rfl
  have hB : dir3 "B" = some ⟨2, "USD", "ACTIVE"⟩ := rfl
  unfold post_ledger_transaction
  rw [hA, hB]
  simp [h]

theorem post3_success (l : List LedgerEntry) (id : String)
    (hbal : ¬ calculate_balance l "A" < 10) (hid : id ∉ postedIds l) :
    post_ledger_transaction dir3 l id "A" "B" 10 "USD" =
      Except.ok (l ++ [⟨id, "A", Direction.debit, 10, "USD"⟩,
                       ⟨id, "B", Direction.credit, 10, "USD"⟩]) :=
  post_ok_of_facts dir3 l id "A" "B" 10 "USD" ⟨1, "USD", "ACTIVE"⟩
    ⟨2, "USD", "ACTIVE"⟩ rfl rfl rfl rfl rfl rfl hbal hid

theorem runTransfers_drained (ids : List String) (l : List LedgerEntry)
    (h : calculate_balance l "A" < 10) :
    runTransfers dir3 ids "A" "B" 10 "USD" l =
      (ids.map (fun _ => Except.error RpcFailure.insufficientFunds), l) := by
  induction ids with
  | nil => rfl
  | cons id rest ih =>
    unfold runTransfers
    rw [post3_insufficient l id h]
    simp [ih]

/-- Claim C3 (confirmed, spec-modelled): per spec.md §5 the check-then-post
sequence is serialized per debit account, so any interleaving of N concurrent
transfers is some total order of atomic check-then-post operations — here the
list `ids` of their (distinct, freshly generated) transaction ids. For every
such order of N ≥ 1 transfers of 10 USD from account `A` holding exactly 10:
exactly one transfer succeeds, the other N−1 are rejected with
`InsufficientFunds`, and no other outcome occurs. -/
theorem concurrent_drain_one_success (ids : List String)
    (hne : ids ≠ []) (hseed : ∀ i ∈ ids, i ≠ "seed") :
    ((runTransfers dir3 ids "A" "B" 10 "USD" ledger3).1.count (Except.ok ()) = 1) ∧
    ((runTransfers dir3 ids "A" "B" 10 "USD" ledger3).1.count
        (Except.error RpcFailure.insufficientFunds) = ids.length - 1) ∧
    (∀ r ∈ (runTransfers dir3 ids "A" "B" 10 "USD" ledger3).1,
      r = Except.ok () ∨ r = Except.error RpcFailure.insufficientFunds) := by
  cases ids with
  | nil => exact absurd rfl hne
  | cons id rest =>
    have hbal0 : ¬ calculate_balance ledger3 "A" < 10 := by decide
    have hid0 : id ∉ postedIds ledger3 := by
      have hs := hseed id (List.mem_cons_self id rest)
      simp [ledger3, postedIds, hs]
    have hfirst := post3_success ledger3 id hbal0 hid0
    have hbal1 : calculate_balance (ledger3 ++ [⟨id, "A", Direction.debit, 10, "USD"⟩,
        ⟨id, "B", Direction.credit, 10, "USD"⟩]) "A" < 10 := by
      rw [calculate_balance_append]
      have h10 : calculate_balance ledger3 "A" = 10 := by decide
      have hm10 : calculate_balance [⟨id, "A", Direction.debit, 10, "USD"⟩,
          ⟨id, "B", Direction.credit, 10, "USD"⟩] "A" = -10 := by
        simp [calculate_balance, entryEffect]
      rw [h10, hm10]
      decide
    unfold runTransfers
    rw [hfirst]
    dsimp only
    rw [runTransfers_drained rest _ hbal1]
    dsimp only
    refine ⟨?_, ?_, ?_⟩
    · simp [List.count_cons, List.count_replicate]
    · simp [List.count_cons, List.count_replicate]
    · intro r hr
      rcases List.mem_cons.mp hr with h | h
      · exact Or.inl h
      · rcases List.mem_map.mp h with ⟨_, _, hxe⟩
        exact Or.inr hxe.symm

theorem concurrent_drain_one_success_witness :
    ((runTransfers dir3 ["t1", "t2", "t3"] "A" "B" 10 "USD" ledger3).1.count
        (Except.ok ()) = 1) ∧
    ((runTransfers dir3 ["t1", "t2", "t3"] "A" "B" 10 "USD" ledger3).1.count
        (Except.error RpcFailure.insufficientFunds) = 2) := by
  have h := concurrent_drain_one_success ["t1", "t2", "t3"] (by decide) (by decide)
  exact ⟨h.1, h.2.1⟩

/-! ## Claim C8 -/

theorem generateUniqueAccountNumber_ok_free (draw : Nat → String)
    (check : String → Option Bool) :
    ∀ (k i : Nat) (n : String),
      generateUniqueAccountNumber draw check i k = AllocResult.ok n →
      check n = some false := by
  intro k
  induction k with
  | zero =>
    intro i n h
    simp [generateUniqueAccountNumber] at h
  | succ k ih =>
    intro i n h
    unfold generateUniqueAccountNumber at h
    cases hc : check (draw i) with
    | none => simp [hc] at h
    | some b =>
      cases b with
      | true =>
        simp only [hc] at h
        exact ih (i + 1) n h
      | false =>
        simp only [hc] at h
        injection h with h2
        rw [← h2]
        exact hc

theorem generateUniqueAccountNumber_ok_bound (draw : Nat → String)
    (check : String → Option Bool) :
    ∀ (k i : Nat) (n : String),
      generateUniqueAccountNumber draw check i k = AllocResult.ok n →
      ∃ j, j < k ∧ n = draw (i + j) ∧ check (draw (i + j)) = some false ∧
        ∀ m, m < j → check (draw (i + m)) = some true := by
  intro k
  induction k with
  | zero =>
    intro i n h
    simp [generateUniqueAccountNumber] at h
  | succ k ih =>
    intro i n h
    unfold generateUniqueAccountNumber at h
    cases hc : check (draw i) with
    | none => simp [hc] at h
    | some b =>
      cases b with
      | false =>
        simp only [hc] at h
        injection h with h2
        refine ⟨0, Nat.succ_pos k, ?_, ?_, fun m hm => absurd hm (Nat.not_lt_zero m)⟩
        · rw [Nat.add_zero, h2]
        · rw [Nat.add_zero]
          exact hc
      | true =>
        simp only [hc] at h
        obtain ⟨j, hj, hn, hchk, hall⟩ := ih (i + 1) n h
        refine ⟨j + 1, Nat.succ_lt_succ hj, ?_, ?_, ?_⟩
        · rw [show i + (j + 1) = (i + 1) + j by omega]
          exact hn
        · rw [show i + (j + 1) = (i + 1) + j by omega]
          exact hchk
        · intro m hm
          cases m with
          | zero =>
            rw [Nat.add_zero]
            exact hc
          | succ m2 =>
            have hm2 := hall m2 (by omega)
            rw [show i + (m2 + 1) = (i + 1) + m2 by omega]
            exact hm2

theorem generateUniqueAccountNumber_exhaust (draw : Nat → String)
    (check : String → Option Bool) :
    ∀ (k i : Nat), (∀ j, j < k → check (draw (i + j)) = some true) →
      generateUniqueAccountNumber draw check i k = AllocResult.exhausted := by
  intro k
  induction k with
  | zero => intro i _; rfl
  | succ k ih =>
    intro i hall
    unfold generateUniqueAccountNumber
    have h0 : check (draw i) = some true := by
      have := hall 0 (Nat.succ_pos k)
      rwa [Nat.add_zero] at this
    simp only [h0]
    exact ih (i + 1) (fun j hj => by
      have := hall (j + 1) (by omega)
      rwa [show i + (j + 1) = (i + 1) + j by omega] at this)

/-- Claim C8 (confirmed): the account-number allocator (1) returns a number
only after an existence check reported non-existence; (2) any returned number
is one of the first 5 candidates, every earlier candidate having collided;
(3) 5 consecutive collisions exhaust the allocator; and (4) when that
happens, `handleCreateAccount` surfaces the thrown
`Failed to generate a unique account number after multiple attempts.` as an
HTTP 500 server error (not a 4xx client input error) and inserts nothing. -/
theorem allocator_unique_check_and_bound :
    (∀ (draw : Nat → String) (check : String → Option Bool) (k i : Nat) (n : String),
      generateUniqueAccountNumber draw check i k = AllocResult.ok n →
      check n = some false) ∧
    (∀ (draw : Nat → String) (check : String → Option Bool) (n : String),
      generateUniqueAccountNumber draw check 0 5 = AllocResult.ok n →
      ∃ j, j < 5 ∧ n = draw j ∧ check (draw j) = some false ∧
        ∀ m, m < j → check (draw m) = some true) ∧
    (∀ (draw : Nat → String) (check : String → Option Bool),
      (∀ i, i < 5 → check (draw i) = some true) →
      generateUniqueAccountNumber draw check 0 5 = AllocResult.exhausted) ∧
    (∀ (req : CreateAccountRequest) (sub : String) (co : String → Option Int)
       (draw : Nat → String) (check : String → Option Bool) (ie : Option String)
       (cid : Int),
      req.customerId ≠ "" →
      (req.accountType = "CHECKING" ∨ req.accountType = "SAVINGS") →
      req.currency.length = 3 →
      co sub = some cid → cid ≠ 0 → jsParseInt req.customerId = some cid →
      (∀ i, i < 5 → check (draw i) = some true) →
      handleCreateAccount req sub co draw check ie =
        (⟨500, some "Internal server error: Failed to generate a unique account number after multiple attempts.",
          none⟩, none)) := by
  refine ⟨generateUniqueAccountNumber_ok_free, ?_, ?_, ?_⟩
  · intro draw check n h
    obtain ⟨j, hj, hn, hchk, hall⟩ :=
      generateUniqueAccountNumber_ok_bound draw check 5 0 n h
    rw [Nat.zero_add] at hn hchk
    refine ⟨j, hj, hn, hchk, fun m hm => ?_⟩
    have := hall m hm
    rwa [Nat.zero_add] at this
  · intro draw check hall
    exact generateUniqueAccountNumber_exhaust draw check 5 0 (fun j hj => by
      rw [Nat.zero_add]
      exact hall j hj)
  · intro req sub co draw check ie cid h1 h2 h3 hco h0 hp hall
    have hat : req.accountType ≠ "" := by
      rcases h2 with h | h <;> rw [h] <;> decide
    have hcu : req.currency ≠ "" := fun e => by
      rw [e] at h3
      exact absurd h3 (by decide)
    have hex := generateUniqueAccountNumber_exhaust draw check 5 0 (fun j hj => by
      rw [Nat.zero_add]
      exact hall j hj)
    rcases h2 with h | h <;>
      simp [handleCreateAccount, h1, hat, hcu, h3, hco, h0, hp, hex, h]

theorem allocator_unique_check_and_bound_witness :
    ((fun s => if s = "0" then some true else some false) "1" =
      (some false : Option Bool)) ∧
    handleCreateAccount ⟨"7", "CHECKING", "USD", none⟩ "sub-1" custC
      (fun i => toString i) (fun _ => some true) none =
      (⟨500, some "Internal server error: Failed to generate a unique account number after multiple attempts.",
        none⟩, none) := by
  constructor
  · exact (allocator_unique_check_and_bound).1 (fun i => toString i)
      (fun s => if s = "0" then some true else some false) 5 0 "1" (by decide)
  · exact (allocator_unique_check_and_bound).2.2.2 ⟨"7", "CHECKING", "USD", none⟩
      "sub-1" custC (fun i => toString i) (fun _ => some true) none 7
      (by decide) (Or.inl rfl) (by decide) rfl (by decide) (by decide)
      (fun i _ => rfl)

/-! ## Claim C4 -/

/-- Fixtures for the C4 scenario: one customer owning one account whose
balance RPC fails (ledger corruption). -/
def acctSum4 : AccountSummary :=
  ⟨"acct-0001-aaaa", "1234567890", "CHECKING", "ACTIVE", "USD", none⟩

def acctRow4 : AccountRow :=
  ⟨"acct-0001-aaaa", 1, "1234567890", "CHECKING", "ACTIVE", "USD", none⟩

def cust4 : String → Option Int := fun s => if s = "sub-4" then some 1 else none

def accounts4 : Int → Option (List AccountSummary) := fun c =>
  if c = 1 then some [acctSum4] else none

def getAcct4 : String → Option AccountRow := fun a =>
  if a = "acct-0001-aaaa" then some acctRow4 else none

def failBalance : String → Except String Int := fun _ =>
  Except.error "currency inconsistency detected in ledger"

/-- Claim C4 counterexample: when the `calculate_balance` RPC fails, both
account handlers respond 200 OK with the account's `balance` field set to the
displayable string `"Error"` — the failure is swallowed as a sentinel string,
not returned as an Error result. -/
theorem balance_error_sentinel_counterexample :
    handleListAccounts (some "1") "sub-4" cust4 accounts4 failBalance =
      ListAccountsResult.ok [⟨acctSum4, BalanceVal.str "Error"⟩] ∧
    handleGetAccount "/accounts/acct-0001-aaaa" "sub-4" cust4 getAcct4 failBalance =
      GetAccountResult.ok acctRow4 (BalanceVal.str "Error") := by decide

/-- Claim C4 (amended): when computing an account's balance fails, the
failure is swallowed as a displayable string: `handleListAccounts` returns a
200 list in which that account's balance is the string `"Error"`, and
`handleGetAccount` returns a 200 account whose balance is the string
`"Error"`. No Error result is propagated. -/
theorem balance_error_swallowed_as_string :
    (∀ (q sub : String) (co : String → Option Int)
       (accountsOf : Int → Option (List AccountSummary))
       (calc2 : String → Except String Int) (cid : Int)
       (accounts : List AccountSummary) (acc : AccountSummary) (msg : String),
      q ≠ "" → co sub = some cid → cid ≠ 0 → jsParseInt q = some cid →
      accountsOf cid = some accounts → acc ∈ accounts →
      calc2 acc.id = Except.error msg →
      ∃ res, handleListAccounts (some q) sub co accountsOf calc2 =
          ListAccountsResult.ok res ∧
        (⟨acc, BalanceVal.str "Error"⟩ : AccountWithBalance) ∈ res) ∧
    (∀ (path sub : String) (co : String → Option Int)
       (getAccount : String → Option AccountRow)
       (calc2 : String → Except String Int) (acct : AccountRow) (msg : String),
      lastPathSegment path ≠ "" → ¬ (lastPathSegment path).length < 10 →
      getAccount (lastPathSegment path) = some acct →
      co sub = some acct.customer_id → acct.customer_id ≠ 0 →
      calc2 acct.id = Except.error msg →
      handleGetAccount path sub co getAccount calc2 =
        GetAccountResult.ok acct (BalanceVal.str "Error")) := by
  constructor
  · intro q sub co accountsOf calc2 cid accounts acc msg hq hco h0 hp hacc hmem hcalc
    refine ⟨accounts.map (fun a =>
      match calc2 a.id with
      | Except.error _ => ⟨a, BalanceVal.str "Error"⟩
      | Except.ok b => ⟨a, BalanceVal.num b⟩), ?_, ?_⟩
    · simp [handleListAccounts, hq, hco, h0, hp, hacc]
    · have := List.mem_map_of_mem (fun a =>
        (match calc2 a.id with
        | Except.error _ => (⟨a, BalanceVal.str "Error"⟩ : AccountWithBalance)
        | Except.ok b => ⟨a, BalanceVal.num b⟩)) hmem
      simpa [hcalc] using this
  · intro path sub co getAccount calc2 acct msg hs hl hacct hco h0 hcalc
    simp [handleGetAccount, hs, hl, hacct, hco, h0, hcalc]

theorem balance_error_swallowed_as_string_witness :
    (∃ res, handleListAccounts (some "1") "sub-4" cust4 accounts4 failBalance =
        ListAccountsResult.ok res ∧
      (⟨acctSum4, BalanceVal.str "Error"⟩ : AccountWithBalance) ∈ res) ∧
    handleGetAccount "/accounts/acct-0001-aaaa" "sub-4" cust4 getAcct4 failBalance =
      GetAccountResult.ok acctRow4 (BalanceVal.str "Error") := by
  constructor
  · exact (balance_error_swallowed_as_string).1 "1" "sub-4" cust4 accounts4
      failBalance 1 [acctSum4] acctSum4 "currency inconsistency detected in ledger"
      (by decide) rfl (by decide) (by decide) rfl (by decide) rfl
  · exact (balance_error_swallowed_as_string).2 "/accounts/acct-0001-aaaa" "sub-4"
      cust4 getAcct4 failBalance acctRow4 "currency inconsistency detected in ledger"
      (by decide) (by decide) (by decide) rfl (by decide) rfl

end BankAI
